import Mathlib

/-!
Verification of the two demo scripts of this repository,
src/langchain_gemini.py (the raindrop demo) and
src/langchain_gemini_sentrial.py (the sentrial demo), against their
natural-language specification.  The scripts are straight-line call
sequences into two tracking SDKs; we embed the call traces they emit,
the exit-code behaviour of their main functions, and, for the raindrop
module, the Python block-indentation discipline that its source text
must satisfy in order to load at all.
-/

namespace Spec2Proof

/-! ### Python indentation checking

A logical source line is abstracted to its indentation column and
whether it is a block header (ends with a colon introducing a suite).
Comments and blank lines are ignored by the Python tokenizer and are
not listed; a multi-line statement (triple-quoted string, open
parenthesis) is one logical line at the indent of its first physical
line.  The checker below is the tokenizer rule: an indent stack starts
at [0]; after a header the next logical line must be strictly more
indented (else: IndentationError, expected an indented block); an
ordinary line must sit exactly on a level present in the stack, popping
to it (else: unexpected indent / unindent does not match). -/

structure PyLine where
  indent : Nat
  opensBlock : Bool
deriving DecidableEq, Repr

/-- Pop the indent stack down to column i.  Returns none when i is not
a level of the stack reachable by popping (an indentation error). -/
def popTo (i : Nat) : List Nat → Option (List Nat)
  | [] => none
  | t :: rest =>
    if i = t then some (t :: rest)
    else if t < i then none
    else popTo i rest

/-- The tokenizer indentation check over a sequence of logical lines.
The Bool argument records whether the previous line was a block header,
so the current line is required to open a new, deeper block. -/
def checkIndent (stack : List Nat) (expectBlock : Bool) : List PyLine → Bool
  | [] => !expectBlock
  | l :: ls =>
    if expectBlock then
      if stack.headD 0 < l.indent then checkIndent (l.indent :: stack) l.opensBlock ls
      else false
    else
      match popTo l.indent stack with
      | some stack2 => checkIndent stack2 l.opensBlock ls
      | none => false

/-- The logical lines of src/langchain_gemini.py from the top of the
module through the line at which tokenization fails (source line 90,
the SYSTEM_PROMPT assignment inside test_basic_tracking).  Source line
numbers are given on each entry.  Everything after line 90 is left
abstract: the theorem for C1 quantifies over an arbitrary tail. -/
def langchainGeminiHead : List PyLine := [
  ⟨0, false⟩,  -- L1-L19   module docstring
  ⟨0, false⟩,  -- L21      module load of os
  ⟨0, false⟩,  -- L22      module load of json
  ⟨0, false⟩,  -- L23      module load of time
  ⟨0, false⟩,  -- L24      from dotenv, load_dotenv
  ⟨0, false⟩,  -- L26      load_dotenv()
  ⟨0, true⟩,   -- L31      try:
  ⟨4, false⟩,  -- L32      module load of raindrop.analytics
  ⟨4, false⟩,  -- L33      RAINDROP_AVAILABLE = True
  ⟨0, true⟩,   -- L34      except ImportError:
  ⟨4, false⟩,  -- L35      print(...)
  ⟨4, false⟩,  -- L36      RAINDROP_AVAILABLE = False
  ⟨0, true⟩,   -- L41      try:
  ⟨4, false⟩,  -- L42      module load of google.generativeai
  ⟨4, false⟩,  -- L43      GEMINI_API_KEY = os.getenv("GEMINI_API_KEY")
  ⟨4, true⟩,   -- L44      if GEMINI_API_KEY:
  ⟨8, false⟩,  -- L45      genai.configure(api_key=GEMINI_API_KEY)
  ⟨8, false⟩,  -- L46      GEMINI_AVAILABLE = True
  ⟨4, true⟩,   -- L47      else:
  ⟨8, false⟩,  -- L48      GEMINI_AVAILABLE = False
  ⟨8, false⟩,  -- L49      print(...)
  ⟨0, true⟩,   -- L50      except ImportError:
  ⟨4, false⟩,  -- L51      GEMINI_AVAILABLE = False
  ⟨4, false⟩,  -- L52      print(...)
  ⟨0, true⟩,   -- L55      def test_basic_tracking():
  ⟨4, false⟩,  -- L56      function docstring
  ⟨4, false⟩,  -- L57      print("\n" + "="*60)
  ⟨4, false⟩,  -- L58      print("TEST 1: Basic AI Tracking")
  ⟨4, false⟩,  -- L59      print("="*60)
  ⟨4, true⟩,   -- L61      if not RAINDROP_AVAILABLE:
  ⟨8, false⟩,  -- L62      print(...)
  ⟨8, false⟩,  -- L63      return
  ⟨4, false⟩,  -- L66      write_key = os.getenv("RAINDROP_WRITE_KEY")
  ⟨4, true⟩,   -- L67      if not write_key:
  ⟨8, false⟩,  -- L68      print(...)
  ⟨8, false⟩,  -- L69      return
  ⟨4, false⟩,  -- L71      raindrop.init(write_key)
  ⟨4, false⟩,  -- L72      raindrop.set_debug_logs(True)
  ⟨4, false⟩,  -- L75-L82  raindrop.identify(...)
  ⟨4, false⟩,  -- L83      print("User identified")
  ⟨4, false⟩,  -- L86      user_input = "What is the capital of France?"
  ⟨4, true⟩,   -- L88      if GEMINI_AVAILABLE:
  ⟨4, false⟩   -- L90-L101 SYSTEM_PROMPT = """...""" (dedented to function level)
]

/-- Python truthiness of the value of os.getenv / os.environ.get: false
for an unset variable and for the empty string. -/
def pyTruthy : Option String → Bool
  | none => false
  | some s => !s.isEmpty

/-! ### The raindrop demo (src/langchain_gemini.py)

Calls into the raindrop SDK are recorded as trace operations.  Content
payloads that no claim inspects (model name, input and output text,
property bags, trait bags, attachment values) are elided from the
operations; user ids, event names, event identifiers, builder
identifiers and attachment counts are kept. -/

inductive ROp where
  | init (writeKey : String)
  | setDebugLogs (b : Bool)
  | identify (userId : String)
  | trackAI (userId : String) (event : String) (eventId : Option String)
  | trackSignal (eventId : String) (name : String) (signalType : String)
  | beginInteraction (builderId : Nat) (userId : String) (event : String)
  | addAttachments (builderId : Nat) (count : Nat)
  | finish (builderId : Nat)
  | flush
  | shutdown
deriving DecidableEq, Repr

/-- Environment of a run of the raindrop demo: whether loading the
raindrop SDK succeeded, the RAINDROP_WRITE_KEY value, whether Gemini is
configured, and the observed values of int(time.time()) at the three
places the script reads the clock to build event identifiers. -/
structure REnv where
  raindropAvailable : Bool
  writeKey : Option String
  geminiAvailable : Bool
  tSignals : Nat
  tConvo : Nat
  tError : Nat

/-- Trace of test_basic_tracking (source lines 55-129), embedded as the call
sequence evidently intended by the statement list.  (The function body
as written fails to tokenize, see langchainGeminiHead; the sequence of
SDK calls in its statements is nevertheless unambiguous.)  The Gemini
branch only changes the output text, which is elided, so the trace does
not depend on it. -/
def test_basic_tracking (env : REnv) : List ROp :=
  if env.raindropAvailable = false then []
  else match env.writeKey with
    | none => []
    | some wk =>
      if wk.isEmpty then []
      else
        [ROp.init wk, ROp.setDebugLogs true, ROp.identify "test_user_001",
         ROp.trackAI "test_user_001" "user_message" none,
         ROp.flush]

/-- Trace of test_signals (source lines 132-173). -/
def test_signals (env : REnv) : List ROp :=
  if env.raindropAvailable = false then []
  else
    [ROp.trackAI "test_user_001" "chatbot_response"
       (some ("evt_" ++ toString env.tSignals)),
     ROp.trackSignal ("evt_" ++ toString env.tSignals) "thumbs_up" "default",
     ROp.trackSignal ("evt_" ++ toString env.tSignals) "user_feedback" "feedback",
     ROp.flush]

/-- Trace of test_partial_events (source lines 176-232).  The single interaction
builder of the run gets identifier 0; one add_attachments call with a
one-element list precedes the single finish call. -/
def test_partial_events (env : REnv) : List ROp :=
  if env.raindropAvailable = false then []
  else
    [ROp.beginInteraction 0 "test_user_001" "code_generation",
     ROp.addAttachments 0 1,
     ROp.finish 0,
     ROp.flush]

/-- Event identifier of turn i of test_complex_conversation:
f-string evt_{convo_id}_{i}. -/
def convoEvt (convoId : String) (i : Nat) : String :=
  "evt_" ++ convoId ++ "_" ++ toString i

/-- Trace of test_complex_conversation (source lines 235-301): three turns, one
track_ai per turn, and the thumbs_up signal on the last turn only
(i = len(turns) - 1 = 2).  Runs only when both raindrop and Gemini are
available. -/
def test_complex_conversation (env : REnv) : List ROp :=
  if env.raindropAvailable && env.geminiAvailable then
    [ROp.trackAI "test_user_001" "chatbot_turn"
       (some (convoEvt ("convo_" ++ toString env.tConvo) 0)),
     ROp.trackAI "test_user_001" "chatbot_turn"
       (some (convoEvt ("convo_" ++ toString env.tConvo) 1)),
     ROp.trackAI "test_user_001" "chatbot_turn"
       (some (convoEvt ("convo_" ++ toString env.tConvo) 2)),
     ROp.trackSignal (convoEvt ("convo_" ++ toString env.tConvo) 2)
       "thumbs_up" "default",
     ROp.flush]
  else []

/-- Trace of test_error_scenario (source lines 304-350). -/
def test_error_scenario (env : REnv) : List ROp :=
  if env.raindropAvailable = false then []
  else
    [ROp.trackAI "test_user_001" "tool_call_failed"
       (some ("evt_error_" ++ toString env.tError)),
     ROp.trackSignal ("evt_error_" ++ toString env.tError) "thumbs_down" "default",
     ROp.trackSignal ("evt_error_" ++ toString env.tError) "user_frustration" "feedback",
     ROp.flush]

/-- The body of the try block of main (source lines 374-379): the five
test functions in order. -/
def raindropBody (env : REnv) : List ROp :=
  test_basic_tracking env ++ test_signals env ++ test_partial_events env ++
    test_complex_conversation env ++ test_error_scenario env

/-- Main function of the raindrop demo (source lines 353-393).  cut = none means
the try block ran to completion; cut = some k means an exception was
raised by the k-th SDK call of the body (the try block stops there, the
except block prints and re-raises, the finally block still runs
shutdown).  Returns the emitted trace and whether an exception
propagated out of main.  When raindrop is unavailable or the write key
is not truthy, main returns before the try block, emitting nothing. -/
def raindropMain (env : REnv) (cut : Option Nat) : List ROp × Bool :=
  if env.raindropAvailable = false then ([], false)
  else if pyTruthy env.writeKey = false then ([], false)
  else match cut with
    | none => (raindropBody env ++ [ROp.shutdown], false)
    | some k => ((raindropBody env).take k ++ [ROp.shutdown], true)

/-- Process exit code of a run of main, were the module to load: 0 on
normal return, 1 when the re-raised exception propagates uncaught. -/
def raindropMainExit (env : REnv) (cut : Option Nat) : Nat :=
  if (raindropMain env cut).2 then 1 else 0

/-- Whether the module text of src/langchain_gemini.py tokenizes. -/
def langchainGeminiLoads : Bool :=
  checkIndent [0] false langchainGeminiHead

/-- Process exit code of python src/langchain_gemini.py: if the module
fails to load, the interpreter reports the IndentationError and exits
with code 1 before any statement runs. -/
def raindropScriptExit (env : REnv) (cut : Option Nat) : Nat :=
  if langchainGeminiLoads then raindropMainExit env cut else 1

/-- Trace actually emitted by python src/langchain_gemini.py: empty
when the module fails to load. -/
def raindropScriptTrace (env : REnv) (cut : Option Nat) : List ROp :=
  if langchainGeminiLoads then (raindropMain env cut).1 else []

/-! ### Trace checkers

A checker is a state machine stepped over a trace; each step reports
whether the operation was legal in the current state and the successor
state.  scanList returns the conjunction of all step verdicts together
with the final state. -/

def scanList (step : σ → ROp → Bool × σ) : σ → List ROp → Bool × σ
  | s, [] => (true, s)
  | s, op :: tr =>
    ((step s op).1 && (scanList step (step s op).2 tr).1,
     (scanList step (step s op).2 tr).2)

/-- Checker for C6: a track_signal is legal only when its event
identifier was supplied to an earlier track_ai; the state is the list
of event identifiers tracked so far. -/
def sigStep (seen : List String) : ROp → Bool × List String
  | ROp.trackSignal eid _ _ => (seen.contains eid, seen)
  | ROp.trackAI _ _ (some eid) => (true, eid :: seen)
  | _ => (true, seen)

/-- Checker for C7: the single-use builder discipline; the state is the
list of sealed builder identifiers.  add_attachments and finish are
legal only on an unsealed builder; finish seals it. -/
def builderStep (sealed : List Nat) : ROp → Bool × List Nat
  | ROp.addAttachments b _ => (!sealed.contains b, sealed)
  | ROp.finish b => (!sealed.contains b, b :: sealed)
  | _ => (true, sealed)

/-- Checker for C9: identify, track_ai, track_signal, begin and flush
are legal only after init; the state records whether init has run. -/
def initStep (inited : Bool) : ROp → Bool × Bool
  | ROp.init _ => (true, true)
  | ROp.identify _ => (inited, inited)
  | ROp.trackAI _ _ _ => (inited, inited)
  | ROp.trackSignal _ _ _ => (inited, inited)
  | ROp.beginInteraction _ _ _ => (inited, inited)
  | ROp.flush => (inited, inited)
  | _ => (true, inited)

def isFinishOp : ROp → Bool
  | ROp.finish _ => true
  | _ => false

def isBeginOp : ROp → Bool
  | ROp.beginInteraction _ _ _ => true
  | _ => false

/-! ### The sentrial demo (src/langchain_gemini_sentrial.py)

The sentrial SDK itself lives in ../packages/python-sdk, which is not
part of src/; its usage-summary shape is modelled from the spec. -/

/-- State of the callback handler counters at the moment
get_usage_summary is read: LLM call count, token counters, accumulated
cost, session start time and current time in milliseconds. -/
structure SessionCounters where
  llmCalls : Nat
  promptTokens : Nat
  completionTokens : Nat
  cost : Rat
  startMs : Nat
  nowMs : Nat

/-- Modelled from the spec: the sentrial SDK (imported from
../packages/python-sdk, absent from src/) returns a usage summary with
exactly the six fields llm_calls, total_prompt_tokens,
total_completion_tokens, total_tokens, total_cost and duration_ms. -/
structure UsageSummary where
  llm_calls : Nat
  total_prompt_tokens : Nat
  total_completion_tokens : Nat
  total_tokens : Nat
  total_cost : Rat
  duration_ms : Nat
deriving DecidableEq, Repr

/-- Modelled from the spec: usage_summary is a pure read of the current
counters plus elapsed time since session start. -/
def get_usage_summary (s : SessionCounters) : UsageSummary :=
  { llm_calls := s.llmCalls
    total_prompt_tokens := s.promptTokens
    total_completion_tokens := s.completionTokens
    total_tokens := s.promptTokens + s.completionTokens
    total_cost := s.cost
    duration_ms := s.nowMs - s.startMs }

/-- Calls of the sentrial demo into the SentrialClient session
lifecycle.  completeSession carries, in order: the session identifier,
the success flag, the optional failure reason, then the forwarded
metrics duration_ms, estimated_cost, prompt_tokens, completion_tokens,
total_tokens, and whether a custom_metrics bag was passed. -/
inductive SOp where
  | createSession (name : String) (agentName : String)
  | completeSession (sessionId : String) (success : Bool)
      (failureReason : Option String) (durationMs : Nat) (estimatedCost : Rat)
      (promptTokens : Nat) (completionTokens : Nat) (totalTokens : Nat)
      (customMetrics : Bool)
deriving DecidableEq, Repr

/-- Environment of a run of the sentrial demo: the two environment
variables, the session identifier returned by create_session, the
handler counters at the time the usage summary is read, and whether
agent.invoke raised (with the str of the exception) or returned. -/
structure SEnv where
  geminiKey : Option String
  sentrialKey : Option String
  sessionId : String
  counters : SessionCounters
  invokeError : Option String

/-- Main function of the sentrial demo (source lines 328-497).  A missing or
empty GEMINI_API_KEY exits with sys.exit(1) before any SDK call; a
missing SENTRIAL_API_KEY only prints a warning.  Otherwise
create_session runs, then the try block: on normal return of
agent.invoke, complete_session with success=True and a custom_metrics
bag; when invoke raises e, the except block prints the traceback and
calls complete_session with success=False, failure_reason=str(e) and no
custom_metrics.  Both paths forward the five metric fields of the usage
summary and fall through to the final prints, so the process exits 0. -/
def sentrialMain (env : SEnv) : List SOp × Nat :=
  if pyTruthy env.geminiKey = false then ([], 1)
  else
    let u := get_usage_summary env.counters
    match env.invokeError with
    | none =>
      ([SOp.createSession "Complex Multi-Step Support Agent Test" "gemini_support_agent",
        SOp.completeSession env.sessionId true none u.duration_ms u.total_cost
          u.total_prompt_tokens u.total_completion_tokens u.total_tokens true], 0)
    | some e =>
      ([SOp.createSession "Complex Multi-Step Support Agent Test" "gemini_support_agent",
        SOp.completeSession env.sessionId false (some e) u.duration_ms u.total_cost
          u.total_prompt_tokens u.total_completion_tokens u.total_tokens false], 0)

def isCompleteOp : SOp → Bool
  | SOp.completeSession _ _ _ _ _ _ _ _ _ => true
  | _ => false

/-! ### get_order_history (src/langchain_gemini_sentrial.py lines 62-77) -/

structure Order where
  id : String
  date : String
  amount : String
  status : String
  item : String
deriving DecidableEq, Repr

/-- The five hard-coded orders of get_order_history, in source order. -/
def orders : List Order := [
  ⟨"ORD-98765", "2024-01-15", "$299.99", "Delivered", "Wireless Headphones Pro"⟩,
  ⟨"ORD-98432", "2024-01-10", "$149.50", "Delivered", "Smart Watch Band"⟩,
  ⟨"ORD-98101", "2024-01-05", "$599.00", "Delivered", "4K Monitor 27inch"⟩,
  ⟨"ORD-97888", "2023-12-20", "$89.99", "Delivered", "USB-C Hub"⟩,
  ⟨"ORD-97654", "2023-12-15", "$1,299.00", "Delivered", "Laptop Stand Deluxe"⟩]

/-- Python list slice lst[:n] for an arbitrary integer n: for n >= 0
the first min(n, len) elements, for n < 0 the first max(0, len + n)
elements; total for every n.  (Int.toNat clamps negatives to 0.) -/
def pySliceTo (l : List α) (n : Int) : List α :=
  l.take (if 0 ≤ n then n.toNat else ((l.length : Int) + n).toNat)

/-- One line of the order listing: the body of the for loop,
f-string "  - {id}: {item} - {amount} ({status}) - {date}\n". -/
def orderLine (o : Order) : String :=
  "  - " ++ o.id ++ ": " ++ o.item ++ " - " ++ o.amount ++ " (" ++ o.status ++
    ") - " ++ o.date ++ "\n"

/-- The function get_order_history: header line then one line per order of
orders[:limit].  The source default for limit is 5. -/
def get_order_history (customer_id : String) (limit : Int) : String :=
  "Recent orders for " ++ customer_id ++ ":\n" ++
    String.join ((pySliceTo orders limit).map orderLine)

/-! ### Concrete environments used to instantiate the theorems -/

/-- A fully configured raindrop run: SDK importable, write key set and
nonempty, Gemini configured, sample clock readings. -/
def fullREnv : REnv :=
  { raindropAvailable := true, writeKey := some "wk-test",
    geminiAvailable := true, tSignals := 100, tConvo := 200, tError := 300 }

/-- A sentrial run in which agent.invoke returns normally. -/
def sEnvOk : SEnv :=
  { geminiKey := some "gk", sentrialKey := some "sk", sessionId := "sess-1",
    counters := { llmCalls := 3, promptTokens := 300, completionTokens := 150,
                  cost := 3, startMs := 1000, nowMs := 1350 },
    invokeError := none }

/-- A sentrial run in which agent.invoke raises an exception whose str
is "boom". -/
def sEnvErr : SEnv :=
  { geminiKey := some "gk", sentrialKey := none, sessionId := "sess-2",
    counters := { llmCalls := 1, promptTokens := 40, completionTokens := 10,
                  cost := 1, startMs := 1000, nowMs := 1200 },
    invokeError := some "boom" }

/-! ### Generic lemmas about trace checkers and traces -/

theorem scanList_append {σ : Type _} (step : σ → ROp → Bool × σ)
    (l₁ l₂ : List ROp) : ∀ s : σ,
    scanList step s (l₁ ++ l₂) =
      ((scanList step s l₁).1 && (scanList step (scanList step s l₁).2 l₂).1,
       (scanList step (scanList step s l₁).2 l₂).2) := by
  induction l₁ with
  | nil => intro s; simp [scanList]
  | cons op tr ih => intro s; simp [scanList, ih, Bool.and_assoc]

theorem scanList_take {σ : Type _} (step : σ → ROp → Bool × σ)
    (l : List ROp) : ∀ (s : σ) (j : Nat),
    (scanList step s l).1 = true → (scanList step s (l.take j)).1 = true := by
  induction l with
  | nil => intro s j _; simp [scanList]
  | cons op tr ih =>
    intro s j h
    cases j with
    | zero => simp [scanList]
    | succ j =>
      simp only [scanList, Bool.and_eq_true] at h
      simp only [List.take_succ_cons, scanList, Bool.and_eq_true]
      exact ⟨h.1, ih _ j h.2⟩

/-- When an element is absent from a list, appending it as a singleton
puts it at the very last position: nothing can follow it. -/
theorem append_singleton_last {α : Type _} (a : α) :
    ∀ (body l₁ l₂ : List α), a ∉ body → body ++ [a] = l₁ ++ a :: l₂ → l₂ = [] := by
  intro body
  induction body with
  | nil =>
    intro l₁ l₂ _ h
    cases l₁ with
    | nil =>
      simp only [List.nil_append] at h
      injection h with h1 h2
      exact h2.symm
    | cons x xs =>
      simp only [List.nil_append, List.cons_append] at h
      injection h with h1 h2
      exact absurd h2.symm (by simp)
  | cons b bs ih =>
    intro l₁ l₂ hmem h
    cases l₁ with
    | nil =>
      simp only [List.cons_append, List.nil_append] at h
      injection h with h1 h2
      apply absurd _ hmem
      rw [← h1]
      exact List.mem_cons_self b bs
    | cons x xs =>
      simp only [List.cons_append] at h
      injection h with h1 h2
      exact ih xs l₂ (fun hm => hmem (List.mem_cons_of_mem b hm)) h2

/-! ### Facts about the raindrop body -/

theorem sigScan_raindropBody (env : REnv) :
    (scanList sigStep [] (raindropBody env)).1 = true := by
  obtain ⟨ra, wk, ga, t1, t2, t3⟩ := env
  rcases wk with _ | wk
  · cases ra <;> cases ga <;>
      simp [raindropBody, test_basic_tracking, test_signals, test_partial_events,
        test_complex_conversation, test_error_scenario, scanList, sigStep, convoEvt]
  · cases ra <;> cases ga <;> cases hwk : wk.isEmpty <;>
      simp [raindropBody, test_basic_tracking, test_signals, test_partial_events,
        test_complex_conversation, test_error_scenario, scanList, sigStep, convoEvt, hwk]

theorem builderScan_raindropBody (env : REnv) :
    (scanList builderStep [] (raindropBody env)).1 = true := by
  obtain ⟨ra, wk, ga, t1, t2, t3⟩ := env
  rcases wk with _ | wk
  · cases ra <;> cases ga <;>
      simp [raindropBody, test_basic_tracking, test_signals, test_partial_events,
        test_complex_conversation, test_error_scenario, scanList, builderStep]
  · cases ra <;> cases ga <;> cases hwk : wk.isEmpty <;>
      simp [raindropBody, test_basic_tracking, test_signals, test_partial_events,
        test_complex_conversation, test_error_scenario, scanList, builderStep, hwk]

theorem initScan_raindropBody (env : REnv)
    (hra : env.raindropAvailable = true) (hwk : pyTruthy env.writeKey = true) :
    (scanList initStep false (raindropBody env)).1 = true := by
  obtain ⟨ra, wk, ga, t1, t2, t3⟩ := env
  rcases wk with _ | wk
  · simp [pyTruthy] at hwk
  · cases ra
    · simp at hra
    · simp only [pyTruthy] at hwk
      cases hwk2 : wk.isEmpty
      · cases ga <;>
          simp [raindropBody, test_basic_tracking, test_signals, test_partial_events,
            test_complex_conversation, test_error_scenario, scanList, initStep, hwk2]
      · simp [hwk2] at hwk

theorem shutdown_not_mem_raindropBody (env : REnv) :
    ROp.shutdown ∉ raindropBody env := by
  obtain ⟨ra, wk, ga, t1, t2, t3⟩ := env
  rcases wk with _ | wk
  · cases ra <;> cases ga <;>
      simp [raindropBody, test_basic_tracking, test_signals, test_partial_events,
        test_complex_conversation, test_error_scenario]
  · cases ra <;> cases ga <;> cases hwk : wk.isEmpty <;>
      simp [raindropBody, test_basic_tracking, test_signals, test_partial_events,
        test_complex_conversation, test_error_scenario, hwk]

/-- A checker whose shutdown step is legal in every state, and which
accepts the full body from state s, accepts the whole main trace for
every cut point: the cut trace is a take of the body, and the finally
block appends the single shutdown. -/
theorem scan_raindropMain {σ : Type _} (step : σ → ROp → Bool × σ) (s : σ)
    (env : REnv) (cut : Option Nat)
    (hsd : ∀ st : σ, (step st ROp.shutdown).1 = true)
    (hbody : (scanList step s (raindropBody env)).1 = true) :
    (scanList step s (raindropMain env cut).1).1 = true := by
  by_cases h1 : env.raindropAvailable = false
  · simp [raindropMain, h1, scanList]
  · by_cases h2 : pyTruthy env.writeKey = false
    · simp [raindropMain, h1, h2, scanList]
    · have htake : ∀ k : Nat, (scanList step s ((raindropBody env).take k)).1 = true :=
        fun k => scanList_take step (raindropBody env) s k hbody
      rcases cut with _ | k <;>
        simp [raindropMain, h1, h2, scanList_append, scanList, hsd, hbody, htake]

/-- The three shutdown properties of a trace of the form
body ++ [shutdown] where the body contains no shutdown: shutdown occurs
at most once, nothing follows it, and it is present. -/
theorem shutdown_trace_props (X : List ROp) (hnmX : ROp.shutdown ∉ X) :
    ((X ++ [ROp.shutdown]).count ROp.shutdown ≤ 1)
    ∧ (∀ l₁ l₂, X ++ [ROp.shutdown] = l₁ ++ ROp.shutdown :: l₂ → l₂ = [])
    ∧ ROp.shutdown ∈ X ++ [ROp.shutdown] := by
  refine ⟨?_, ?_, ?_⟩
  · rw [List.count_append]
    have h0 : X.count ROp.shutdown = 0 := List.count_eq_zero.mpr hnmX
    simp [h0]
  · intro l₁ l₂ h
    exact append_singleton_last ROp.shutdown X l₁ l₂ hnmX h
  · simp

/-! ### Claim theorems -/

/-- Claim C1: src/langchain_gemini.py does not parse as Python.  After
the block header if GEMINI_AVAILABLE: (source line 88, indent 4) the
next logical line, the SYSTEM_PROMPT assignment (line 90), is dedented
back to indent 4 where the tokenizer requires a strictly deeper block,
so however the rest of the file continues, tokenization fails with an
IndentationError; loading therefore fails for every environment
configuration, the script exits 1 at load time and emits no tracking
call. -/
theorem C1_module_fails_to_parse :
    (∀ rest : List PyLine,
        checkIndent [0] false (langchainGeminiHead ++ rest) = false)
    ∧ ∀ (env : REnv) (cut : Option Nat),
        raindropScriptTrace env cut = [] ∧ raindropScriptExit env cut = 1 := by
  constructor
  · intro rest
    rfl
  · intro env cut
    constructor
    · simp [raindropScriptTrace, show langchainGeminiLoads = false from rfl]
    · simp [raindropScriptExit, show langchainGeminiLoads = false from rfl]

/-- Claim C6: in every run of the raindrop demo, for every cut point at
which an internal exception may interrupt the body, each track_signal
call references an event identifier that an earlier track_ai call of
the same run supplied as event_id (checker sigStep). -/
theorem C6_signal_after_tracked_event (env : REnv) (cut : Option Nat) :
    (scanList sigStep [] (raindropMain env cut).1).1 = true :=
  scan_raindropMain sigStep [] env cut (fun _ => rfl) (sigScan_raindropBody env)

/-- Claim C9: in every run of the raindrop demo, raindrop.init precedes
every identify, track_ai, track_signal, begin and flush call (checker
initStep, started in the uninitialized state). -/
theorem C9_init_before_tracking (env : REnv) (cut : Option Nat) :
    (scanList initStep false (raindropMain env cut).1).1 = true := by
  by_cases h1 : env.raindropAvailable = false
  · simp [raindropMain, h1, scanList]
  · by_cases h2 : pyTruthy env.writeKey = false
    · simp [raindropMain, h1, h2, scanList]
    · refine scan_raindropMain initStep false env cut (fun _ => rfl)
        (initScan_raindropBody env ?_ ?_)
      · revert h1
        cases env.raindropAvailable <;> simp
      · revert h2
        cases pyTruthy env.writeKey <;> simp

/-- Claim C2 counterexample: a raindrop run with every required key
present and no internal exception does not exit 0 — the module fails to
load, so the interpreter exits 1 regardless of configuration. -/
theorem C2_counterexample_full_config_exits_one :
    ¬ raindropScriptExit fullREnv none = 0 := by decide

/-- Claim C2 amended: the sentrial demo exits 1 exactly when
GEMINI_API_KEY is unset or empty, and 0 otherwise (a missing
SENTRIAL_API_KEY only prints a warning).  The raindrop main, as
written, returns normally — exit code 0 — when RAINDROP_WRITE_KEY is
missing, instead of exiting 1; it would exit 1 only by re-raising an
internal exception.  The raindrop script as a whole exits 1 in every
configuration, because the module fails to load. -/
theorem C2_amended_exit_codes (senv : SEnv) (renv : REnv) (cut : Option Nat) :
    ((sentrialMain senv).2 = if pyTruthy senv.geminiKey then 0 else 1)
    ∧ (raindropMainExit renv cut =
        if renv.raindropAvailable && pyTruthy renv.writeKey && cut.isSome
        then 1 else 0)
    ∧ raindropScriptExit renv cut = 1 := by
  refine ⟨?_, ?_, ?_⟩
  · unfold sentrialMain
    cases h : pyTruthy senv.geminiKey
    · simp
    · rcases senv.invokeError with _ | e <;> simp
  · unfold raindropMainExit raindropMain
    cases h1 : renv.raindropAvailable <;> cases h2 : pyTruthy renv.writeKey <;>
      rcases cut with _ | k <;> simp [h1, h2]
  · simp [raindropScriptExit, show langchainGeminiLoads = false from rfl]

/-- Claim C3 counterexample: in the raindrop demo an internal exception
(here one interrupting the body after its third call, in a fully
configured run) is re-raised by the top-level except block of main
(source line 389), so it propagates out of main and the process exits
1, not 0. -/
theorem C3_counterexample_raindrop_reraises :
    (raindropMain fullREnv (some 3)).2 = true
    ∧ raindropMainExit fullREnv (some 3) = 1 := by
  constructor <;> decide

/-- Claim C3 amended: in the sentrial demo an internal exception raised
after configuration succeeds is caught, printed and not propagated, and
the process exits 0; in the raindrop demo the top-level except block
prints and then re-raises, so in any configured run an internal
exception propagates out of main. -/
theorem C3_amended_exception_handling :
    (∀ (senv : SEnv) (e : String), pyTruthy senv.geminiKey = true →
        senv.invokeError = some e → (sentrialMain senv).2 = 0)
    ∧ (∀ (renv : REnv) (k : Nat),
        (raindropMain renv (some k)).2 =
          (renv.raindropAvailable && pyTruthy renv.writeKey)) := by
  constructor
  · intro senv e hkey herr
    unfold sentrialMain
    simp [hkey, herr]
  · intro renv k
    unfold raindropMain
    cases h1 : renv.raindropAvailable <;> cases h2 : pyTruthy renv.writeKey <;>
      simp [h1, h2]

/-- Witness for C3 amended, at a concrete sentrial run raising "boom"
and a concrete raindrop run cut at the third call. -/
theorem C3_amended_witness :
    (pyTruthy sEnvErr.geminiKey = true ∧ sEnvErr.invokeError = some "boom"
      ∧ (sentrialMain sEnvErr).2 = 0)
    ∧ (raindropMain fullREnv (some 3)).2 =
        (fullREnv.raindropAvailable && pyTruthy fullREnv.writeKey) :=
  ⟨⟨by decide, rfl,
     C3_amended_exception_handling.1 sEnvErr "boom" (by decide) rfl⟩,
   C3_amended_exception_handling.2 fullREnv 3⟩

/-- Claim C4: in every sentrial run that reaches create_session (the
GEMINI_API_KEY guard passed), complete_session is called exactly once,
on the session identifier create_session returned, with success=True
and no failure reason when agent.invoke returns, and with success=False
and failure_reason str(e) when it raises e; the terminal transition is
never taken twice. -/
theorem C4_complete_session_exactly_once (senv : SEnv)
    (h : pyTruthy senv.geminiKey = true) :
    ((sentrialMain senv).1.countP isCompleteOp = 1)
    ∧ (∀ sid suc fr d c p q t m,
        SOp.completeSession sid suc fr d c p q t m ∈ (sentrialMain senv).1 →
          sid = senv.sessionId ∧ (suc = true ↔ senv.invokeError = none)
          ∧ fr = senv.invokeError) := by
  unfold sentrialMain
  rcases he : senv.invokeError with _ | e <;>
    simp [h, he, isCompleteOp] <;> intros <;> simp_all

/-- Witness for C4 at a concrete successful run, instantiating the
membership hypothesis at the one complete_session call of its trace. -/
theorem C4_witness :
    pyTruthy sEnvOk.geminiKey = true
    ∧ SOp.completeSession "sess-1" true none 350 3 300 150 450 true
        ∈ (sentrialMain sEnvOk).1
    ∧ ((sentrialMain sEnvOk).1.countP isCompleteOp = 1)
    ∧ ("sess-1" = sEnvOk.sessionId ∧ (true = true ↔ sEnvOk.invokeError = none)
       ∧ (none : Option String) = sEnvOk.invokeError) := by
  have h1 : pyTruthy sEnvOk.geminiKey = true := by decide
  have h2 : SOp.completeSession "sess-1" true none 350 3 300 150 450 true
      ∈ (sentrialMain sEnvOk).1 := by decide
  exact ⟨h1, h2, (C4_complete_session_exactly_once sEnvOk h1).1,
    (C4_complete_session_exactly_once sEnvOk h1).2 _ _ _ _ _ _ _ _ _ h2⟩

/-- Claim C5: get_usage_summary returns exactly the six fields
llm_calls, total_prompt_tokens, total_completion_tokens, total_tokens,
total_cost and duration_ms read off the counters, and every
complete_session call of the sentrial demo — on the success path and on
the failure path alike — forwards duration_ms, total_cost,
total_prompt_tokens, total_completion_tokens and total_tokens unchanged
from the summary. -/
theorem C5_usage_summary_fields_forwarded (s : SessionCounters) (senv : SEnv) :
    (get_usage_summary s =
      { llm_calls := s.llmCalls, total_prompt_tokens := s.promptTokens,
        total_completion_tokens := s.completionTokens,
        total_tokens := s.promptTokens + s.completionTokens,
        total_cost := s.cost, duration_ms := s.nowMs - s.startMs })
    ∧ (∀ sid suc fr d c p q t m,
        SOp.completeSession sid suc fr d c p q t m ∈ (sentrialMain senv).1 →
          d = (get_usage_summary senv.counters).duration_ms
          ∧ c = (get_usage_summary senv.counters).total_cost
          ∧ p = (get_usage_summary senv.counters).total_prompt_tokens
          ∧ q = (get_usage_summary senv.counters).total_completion_tokens
          ∧ t = (get_usage_summary senv.counters).total_tokens) := by
  constructor
  · rfl
  · unfold sentrialMain
    cases hk : pyTruthy senv.geminiKey
    · simp
    · rcases he : senv.invokeError with _ | e <;>
        simp [hk] <;> intros <;> simp_all

/-- Witness for C5 at a concrete counter state and run, instantiating
the membership hypothesis at the one complete_session call. -/
theorem C5_witness :
    SOp.completeSession "sess-1" true none 350 3 300 150 450 true
        ∈ (sentrialMain sEnvOk).1
    ∧ (get_usage_summary sEnvOk.counters =
        { llm_calls := sEnvOk.counters.llmCalls,
          total_prompt_tokens := sEnvOk.counters.promptTokens,
          total_completion_tokens := sEnvOk.counters.completionTokens,
          total_tokens := sEnvOk.counters.promptTokens + sEnvOk.counters.completionTokens,
          total_cost := sEnvOk.counters.cost,
          duration_ms := sEnvOk.counters.nowMs - sEnvOk.counters.startMs })
    ∧ (350 = (get_usage_summary sEnvOk.counters).duration_ms
       ∧ (3 : Rat) = (get_usage_summary sEnvOk.counters).total_cost
       ∧ 300 = (get_usage_summary sEnvOk.counters).total_prompt_tokens
       ∧ 150 = (get_usage_summary sEnvOk.counters).total_completion_tokens
       ∧ 450 = (get_usage_summary sEnvOk.counters).total_tokens) := by
  have h2 : SOp.completeSession "sess-1" true none 350 3 300 150 450 true
      ∈ (sentrialMain sEnvOk).1 := by decide
  exact ⟨h2, (C5_usage_summary_fields_forwarded sEnvOk.counters sEnvOk).1,
    (C5_usage_summary_fields_forwarded sEnvOk.counters sEnvOk).2 _ _ _ _ _ _ _ _ _ h2⟩

/-- Claim C7: in every run of the raindrop demo, however it is cut by
an internal exception, no add_attachments or finish ever targets an
already-sealed builder (checker builderStep, so no call can fail with
SealedBuilderError); and in a configured, uninterrupted run the single
builder opened by begin is finished exactly once, with its one
add_attachments call before the finish. -/
theorem C7_builder_single_use (env : REnv) (cut : Option Nat) :
    (scanList builderStep [] (raindropMain env cut).1).1 = true
    ∧ (env.raindropAvailable = true → pyTruthy env.writeKey = true →
        ((raindropMain env none).1.filter isFinishOp = [ROp.finish 0]
         ∧ (raindropMain env none).1.filter isBeginOp =
             [ROp.beginInteraction 0 "test_user_001" "code_generation"])) := by
  refine ⟨scan_raindropMain builderStep [] env cut (fun _ => rfl)
      (builderScan_raindropBody env), ?_⟩
  intro h1 h2
  obtain ⟨ra, wk, ga, t1, t2, t3⟩ := env
  cases ra
  · simp at h1
  · rcases wk with _ | wk
    · simp [pyTruthy] at h2
    · simp only [pyTruthy] at h2
      cases hwk : wk.isEmpty
      · cases ga <;>
          simp [raindropMain, raindropBody, test_basic_tracking, test_signals,
            test_partial_events, test_complex_conversation, test_error_scenario,
            pyTruthy, hwk, isFinishOp, isBeginOp]
      · simp [hwk] at h2

/-- Claim C8: in every run of the raindrop demo, shutdown is invoked at
most once, nothing at all (in particular no tracking or flush call)
follows it in the trace, and in every configured run — also when an
internal exception cuts the body — the finally block still runs it. -/
theorem C8_shutdown_once_and_last (env : REnv) (cut : Option Nat) :
    ((raindropMain env cut).1.count ROp.shutdown ≤ 1)
    ∧ (∀ l₁ l₂, (raindropMain env cut).1 = l₁ ++ ROp.shutdown :: l₂ → l₂ = [])
    ∧ (env.raindropAvailable = true → pyTruthy env.writeKey = true →
        ROp.shutdown ∈ (raindropMain env cut).1) := by
  cases hra : env.raindropAvailable
  · refine ⟨?_, ?_, ?_⟩
    · simp [raindropMain, hra]
    · intro l₁ l₂ h
      simp [raindropMain, hra] at h
    · intro hra2 _
      exact absurd hra2 (by simp)
  · cases hwk : pyTruthy env.writeKey
    · refine ⟨?_, ?_, ?_⟩
      · simp [raindropMain, hra, hwk]
      · intro l₁ l₂ h
        simp [raindropMain, hra, hwk] at h
      · intro _ hwk2
        exact absurd hwk2 (by simp)
    · have hnm := shutdown_not_mem_raindropBody env
      rcases cut with _ | k
      · have htr : (raindropMain env none).1 = raindropBody env ++ [ROp.shutdown] := by
          simp [raindropMain, hra, hwk]
        rw [htr]
        have hp := shutdown_trace_props (raindropBody env) hnm
        exact ⟨hp.1, hp.2.1, fun _ _ => hp.2.2⟩
      · have htr : (raindropMain env (some k)).1 =
            (raindropBody env).take k ++ [ROp.shutdown] := by
          simp [raindropMain, hra, hwk]
        rw [htr]
        have hp := shutdown_trace_props ((raindropBody env).take k)
          (fun hm => hnm (List.take_subset k (raindropBody env) hm))
        exact ⟨hp.1, hp.2.1, fun _ _ => hp.2.2⟩

/-- Witness for C8 at a fully configured run cut by an exception after
the seventh call. -/
theorem C8_witness :
    fullREnv.raindropAvailable = true ∧ pyTruthy fullREnv.writeKey = true
    ∧ ROp.shutdown ∈ (raindropMain fullREnv (some 7)).1 :=
  ⟨rfl, by decide,
   (C8_shutdown_once_and_last fullREnv (some 7)).2.2 rfl (by decide)⟩

/-- Witness for C7 at the fully configured, uninterrupted run. -/
theorem C7_witness :
    fullREnv.raindropAvailable = true ∧ pyTruthy fullREnv.writeKey = true
    ∧ ((raindropMain fullREnv none).1.filter isFinishOp = [ROp.finish 0]
       ∧ (raindropMain fullREnv none).1.filter isBeginOp =
           [ROp.beginInteraction 0 "test_user_001" "code_generation"]) :=
  ⟨rfl, by decide, (C7_builder_single_use fullREnv none).2 rfl (by decide)⟩

/-- Claim C10: for every customer id and every integer limit at least
0, get_order_history returns the header line followed by the lines of
exactly min(limit, 5) of the five hard-coded orders, in their listed
order; and the slice orders[:limit] is total for every integer limit,
never yielding more than the five orders. -/
theorem C10_get_order_history_is_take_min (cid : String) (limit : Int)
    (h : 0 ≤ limit) :
    (get_order_history cid limit =
      "Recent orders for " ++ cid ++ ":\n" ++
        String.join ((orders.take (min limit.toNat 5)).map orderLine))
    ∧ (orders.take (min limit.toNat 5)).length = min limit.toNat 5
    ∧ ∀ n : Int, (pySliceTo orders n).length ≤ 5 := by
  refine ⟨?_, ?_, ?_⟩
  · unfold get_order_history pySliceTo
    rw [if_pos h]
    have htk : orders.take limit.toNat = orders.take (min limit.toNat 5) := by
      rw [List.take_eq_take]
      simp [orders]
    rw [htk]
  · rw [List.length_take]
    simp [orders]
  · intro n
    unfold pySliceTo
    rw [List.length_take]
    exact min_le_right _ _

/-- Witness for C10 at customer CUST-12345 with limit 3. -/
theorem C10_witness :
    (0 : Int) ≤ 3
    ∧ ((get_order_history "CUST-12345" 3 =
        "Recent orders for " ++ "CUST-12345" ++ ":\n" ++
          String.join ((orders.take (min (Int.toNat 3) 5)).map orderLine))
       ∧ (orders.take (min (Int.toNat 3) 5)).length = min (Int.toNat 3) 5
       ∧ ∀ n : Int, (pySliceTo orders n).length ≤ 5) :=
  ⟨by decide, C10_get_order_history_is_take_min "CUST-12345" 3 (by decide)⟩

end Spec2Proof
